import Mathlib

/-!
Verification of the task-manager backend (Express + Mongoose).

Shallow embedding of:
* `src/controllers/taskController.js` (getTasks, createTask, updateTask,
  deleteTask, getTask) — the file `src/unnamed/part_000`;
* the validation chains of `src/routes/taskRoutes.js` (`src/unnamed/part_001`);
* `src/config/authConfig.js`;
* the Token Codec / auth middleware, which are not part of the provided
  sources and are modelled from the spec where a claim needs them.

Conventions: Mongo ObjectIds and user ids are `Nat`; timestamps are `Nat`
(milliseconds); the persistent store is a `List Task`; a store fault (a
rejected Mongoose promise) is injected as an `Option String` carrying the
error message, `none` meaning the store call succeeds.  `process.env.NODE_ENV`
is passed as the `env : String` argument.
-/

namespace TM

/-- A task document, after the schema of `src/models/Task.js` as documented in
the README: title, description, completed, priority, dueDate, user (owner
reference), createdAt, updatedAt. -/
structure Task where
  id : Nat
  title : String
  description : String
  completed : Bool
  priority : String
  dueDate : Option String
  user : Nat
  createdAt : Nat
  updatedAt : Nat
deriving DecidableEq, Repr

/-- The query string of `GET /api/tasks`: `completed`, `priority`, `sort`,
each possibly absent (`req.query` fields are strings when present). -/
structure TaskQuery where
  completed : Option String
  priority : Option String
  sort : Option String
deriving DecidableEq, Repr

/-- A Mongoose filter as built by `getTasks`: always a `user` equality, plus
optional `completed` and `priority` equalities. -/
structure TaskFilter where
  user : Nat
  completed : Option Bool
  priority : Option String
deriving DecidableEq, Repr

/-- Whether a document matches a filter (conjunction of the present fields). -/
def matchesFilter (f : TaskFilter) (t : Task) : Bool :=
  t.user == f.user
    && (match f.completed with | some c => t.completed == c | none => true)
    && (match f.priority with | some p => t.priority == p | none => true)

/-- `a ≤ b` on optional strings, missing values first (Mongo sorts documents
missing the sort field before those that have it, ascending). -/
def optStrLe : Option String → Option String → Bool
  | none, _ => true
  | some _, none => false
  | some a, some b => a ≤ b

/-- The comparator denoted by a Mongoose sort string, for the sort keys the
route declares (`-createdAt`, `createdAt`, `-updatedAt`, `updatedAt`, `title`,
`-title`, `dueDate`, `-dueDate`).  A key outside this set compares a field no
document has, so every pair is tied and the order is unchanged. -/
def sortLe (key : String) (a b : Task) : Bool :=
  if key = "-createdAt" then b.createdAt ≤ a.createdAt
  else if key = "createdAt" then a.createdAt ≤ b.createdAt
  else if key = "-updatedAt" then b.updatedAt ≤ a.updatedAt
  else if key = "updatedAt" then a.updatedAt ≤ b.updatedAt
  else if key = "title" then a.title ≤ b.title
  else if key = "-title" then b.title ≤ a.title
  else if key = "dueDate" then optStrLe a.dueDate b.dueDate
  else if key = "-dueDate" then optStrLe b.dueDate a.dueDate
  else true

/-- Insert into a list sorted by `le`, keeping it sorted (model of the store
producing sorted output). -/
def orderedInsertTask (le : Task → Task → Bool) (a : Task) : List Task → List Task
  | [] => [a]
  | b :: l => if le a b then a :: b :: l else b :: orderedInsertTask le a l

/-- Sort a list of tasks by `le` (insertion sort; models `.sort(key)`). -/
def insertionSortTask (le : Task → Task → Bool) : List Task → List Task
  | [] => []
  | a :: l => orderedInsertTask le a (insertionSortTask le l)

/-- Model of `Task.find(filter).sort(sort)`: the matching documents, sorted by
the comparator the sort string denotes. -/
def Task.find (store : List Task) (f : TaskFilter) (sort : String) : List Task :=
  insertionSortTask (sortLe sort) (store.filter (matchesFilter f))

/-- Model of `Task.findOne({ _id: id, user: uid })`: the first document
matching both equalities. -/
def Task.findOne (store : List Task) (tid uid : Nat) : Option Task :=
  store.find? (fun t => t.id == tid && t.user == uid)

/-- Remove the first document matching `{ _id: id, user: uid }` (the store
effect of `Task.findOneAndDelete`). -/
def removeFirstTask (store : List Task) (tid uid : Nat) : List Task :=
  match store with
  | [] => []
  | t :: l =>
    if t.id == tid && t.user == uid then l
    else t :: removeFirstTask l tid uid

/-- Replace the first document matching `{ _id: id, user: uid }` by `t'` (the
store effect of `task.save()` on a fetched document). -/
def replaceFirstTask (store : List Task) (tid uid : Nat) (t' : Task) : List Task :=
  match store with
  | [] => []
  | t :: l =>
    if t.id == tid && t.user == uid then t' :: l
    else t :: replaceFirstTask l tid uid t'

/-- Response of the list endpoint: status, message, and — only on the success
path — `count` and `tasks`; `error` carries `error.message` when the 500
handler includes it. -/
structure TasksResp where
  status : Nat
  message : String
  count : Option Nat
  tasks : Option (List Task)
  error : Option String
deriving DecidableEq, Repr

/-- Response of the single-task endpoints: status, message, the task when
present, validation `errors` when present, `error` as above. -/
structure TaskResp where
  status : Nat
  message : String
  task : Option Task
  errors : Option (List String)
  error : Option String
deriving DecidableEq, Repr

/-- `process.env.NODE_ENV === 'development' ? error.message : undefined`. -/
def devError (env msg : String) : Option String :=
  if env = "development" then some msg else none

/-- The filter `getTasks` builds: `{ user: req.user._id }`, plus
`completed: completed === 'true'` when the `completed` parameter is present,
plus `priority` when present and truthy (the empty string is falsy). -/
def buildFilter (uid : Nat) (q : TaskQuery) : TaskFilter :=
  { user := uid
    completed := q.completed.map (fun c => c == "true")
    priority := match q.priority with
      | some p => if p = "" then none else some p
      | none => none }

/-- `getTasks` of `taskController.js`: build the filter, query the store with
the requested sort (default `-createdAt`), answer 200 with count and tasks;
on a store fault answer 500, exposing `error.message` only in development.
No validation result is consulted. -/
def getTasks (env : String) (fault : Option String) (store : List Task)
    (uid : Nat) (q : TaskQuery) : TasksResp :=
  match fault with
  | some msg =>
    { status := 500, message := "Server error while fetching tasks"
      count := none, tasks := none, error := devError env msg }
  | none =>
    let sortArg := q.sort.getD "-createdAt"
    let tasks := Task.find store (buildFilter uid q) sortArg
    { status := 200, message := "Tasks retrieved successfully"
      count := some tasks.length, tasks := some tasks, error := none }

/-- A request body for `POST /api/tasks` or `PUT /api/tasks/:id`.  Every
field may be absent; `user` models a caller-supplied owner field (the
validation chains never mention it, so it reaches the controller untouched).
`completed` is kept as `Bool` because `.isBoolean()` plus the Mongoose cast
only let boolean values through.  The external `.isISO8601()` check is passed
in as the parameter `isISO` of the functions that use it. -/
structure TaskBody where
  title : Option String
  description : Option String
  priority : Option String
  dueDate : Option String
  completed : Option Bool
  user : Option Nat
deriving DecidableEq, Repr

/-- The body with no field present. -/
def emptyBody : TaskBody :=
  { title := none, description := none, priority := none
    dueDate := none, completed := none, user := none }

/-- Whitespace as JavaScript's `trim` sees it (the characters that matter
here). -/
def isWsChar (c : Char) : Bool := c = ' ' ∨ c = '\t' ∨ c = '\n' ∨ c = '\r'

/-- JavaScript's `String.prototype.trim`, which the `.trim()` sanitizer
applies: strip leading and trailing whitespace. -/
def jsTrim (s : String) : String :=
  String.mk (((s.data.dropWhile isWsChar).reverse.dropWhile isWsChar).reverse)

/-- The `.trim()` sanitizers of both validation chains: they rewrite
`req.body.title` and `req.body.description` in place. -/
def sanitizeBody (b : TaskBody) : TaskBody :=
  { b with title := b.title.map jsTrim
           description := b.description.map jsTrim }

/-- Messages of `taskValidation` (`POST /`): `title` required, non-empty and
at most 200 chars after trimming; the other fields checked only when
present. -/
def createValidationErrors (isISO : String → Bool) (b : TaskBody) : List String :=
  (if (jsTrim (b.title.getD "")).data.isEmpty then ["Title is required"] else [])
    ++ (if (jsTrim (b.title.getD "")).data.length > 200 then
          ["Title cannot exceed 200 characters"] else [])
    ++ (match b.description with
        | some d => if (jsTrim d).data.length > 1000 then
            ["Description cannot exceed 1000 characters"] else []
        | none => [])
    ++ (match b.priority with
        | some p => if p = "low" ∨ p = "medium" ∨ p = "high" then []
            else ["Priority must be low, medium, or high"]
        | none => [])
    ++ (match b.dueDate with
        | some d => if isISO d then [] else ["Due date must be a valid date"]
        | none => [])

/-- Messages of `updateTaskValidation` (`PUT /:id`): same as create except
`title` is optional (checked only when present). -/
def updateValidationErrors (isISO : String → Bool) (b : TaskBody) : List String :=
  (match b.title with
   | some t =>
     (if (jsTrim t).data.isEmpty then ["Title cannot be empty"] else [])
       ++ (if (jsTrim t).data.length > 200 then
            ["Title cannot exceed 200 characters"] else [])
   | none => [])
    ++ (match b.description with
        | some d => if (jsTrim d).data.length > 1000 then
            ["Description cannot exceed 1000 characters"] else []
        | none => [])
    ++ (match b.priority with
        | some p => if p = "low" ∨ p = "medium" ∨ p = "high" then []
            else ["Priority must be low, medium, or high"]
        | none => [])
    ++ (match b.dueDate with
        | some d => if isISO d then [] else ["Due date must be a valid date"]
        | none => [])

/-- Messages of `queryValidation` (`GET /`): `completed` in
`['true','false']`, `priority` in `['low','medium','high']`, `sort` in the
eight declared keys — each only when present. -/
def queryValidationErrors (q : TaskQuery) : List String :=
  (match q.completed with
   | some c => if c = "true" ∨ c = "false" then []
       else ["Completed must be true or false"]
   | none => [])
    ++ (match q.priority with
        | some p => if p = "low" ∨ p = "medium" ∨ p = "high" then []
            else ["Priority must be low, medium, or high"]
        | none => [])
    ++ (match q.sort with
        | some s => if s = "-createdAt" ∨ s = "createdAt" ∨ s = "-updatedAt"
              ∨ s = "updatedAt" ∨ s = "title" ∨ s = "-title"
              ∨ s = "dueDate" ∨ s = "-dueDate" then []
            else ["Invalid sort parameter"]
        | none => [])

/-- `Object.assign(task, req.body)`: every field present in the (sanitized)
body overwrites the document's field — including `user`, which neither the
validation chain nor the controller excludes. -/
def assignBody (b : TaskBody) (t : Task) : Task :=
  { t with
    title := b.title.getD t.title
    description := b.description.getD t.description
    priority := b.priority.getD t.priority
    dueDate := match b.dueDate with | some d => some d | none => t.dueDate
    completed := b.completed.getD t.completed
    user := b.user.getD t.user }

/-- `createTask`: check `validationResult` (400 on failure); build the new
document as `{ ...req.body, user: req.user._id }` — the spread comes first,
so `user` is always the authenticated id and the schema defaults fill
`completed` (false) and `priority` ('medium'); save it (501 ↦ 201 response);
on a store fault answer 500 with `error.message` only in development.
`nextId` and `now` stand for the id and timestamp the store mints. -/
def createTask (env : String) (fault : Option String) (isISO : String → Bool)
    (store : List Task) (uid : Nat) (nextId now : Nat) (body : TaskBody) :
    TaskResp × List Task :=
  let b := sanitizeBody body
  let errs := createValidationErrors isISO b
  if errs ≠ [] then
    ({ status := 400, message := "Validation failed"
       task := none, errors := some errs, error := none }, store)
  else match fault with
  | some msg =>
    ({ status := 500, message := "Server error while creating task"
       task := none, errors := none, error := devError env msg }, store)
  | none =>
    let t : Task :=
      { id := nextId
        title := jsTrim (b.title.getD "")
        description := jsTrim (b.description.getD "")
        completed := b.completed.getD false
        priority := b.priority.getD "medium"
        dueDate := b.dueDate
        user := uid
        createdAt := now
        updatedAt := now }
    ({ status := 201, message := "Task created successfully"
       task := some t, errors := none, error := none }, store ++ [t])

/-- `updateTask`: check `validationResult` (400 on failure); fetch via
`Task.findOne({ _id: id, user: req.user._id })` (404 when no owned match);
`Object.assign(task, req.body)` then `task.save()`; on a store fault answer
500 with `error.message` only in development. -/
def updateTask (env : String) (fault : Option String) (isISO : String → Bool)
    (store : List Task) (uid tid : Nat) (body : TaskBody) :
    TaskResp × List Task :=
  let b := sanitizeBody body
  let errs := updateValidationErrors isISO b
  if errs ≠ [] then
    ({ status := 400, message := "Validation failed"
       task := none, errors := some errs, error := none }, store)
  else match fault with
  | some msg =>
    ({ status := 500, message := "Server error while updating task"
       task := none, errors := none, error := devError env msg }, store)
  | none =>
    match Task.findOne store tid uid with
    | none =>
      ({ status := 404, message := "Task not found"
         task := none, errors := none, error := none }, store)
    | some t =>
      let t' := assignBody b t
      ({ status := 200, message := "Task updated successfully"
         task := some t', errors := none, error := none },
       replaceFirstTask store tid uid t')

/-- `deleteTask`: `Task.findOneAndDelete({ _id: id, user: req.user._id })`,
404 when no owned match, otherwise 200 with the deleted document; no
validation result is consulted.  Store faults as above. -/
def deleteTask (env : String) (fault : Option String) (store : List Task)
    (uid tid : Nat) : TaskResp × List Task :=
  match fault with
  | some msg =>
    ({ status := 500, message := "Server error while deleting task"
       task := none, errors := none, error := devError env msg }, store)
  | none =>
    match Task.findOne store tid uid with
    | none =>
      ({ status := 404, message := "Task not found"
         task := none, errors := none, error := none }, store)
    | some t =>
      ({ status := 200, message := "Task deleted successfully"
         task := some t, errors := none, error := none },
       removeFirstTask store tid uid)

/-- `getTask`: `Task.findOne({ _id: id, user: req.user._id })`, 404 when no
owned match, otherwise 200 with the document; no validation result is
consulted.  Store faults as above. -/
def getTask (env : String) (fault : Option String) (store : List Task)
    (uid tid : Nat) : TaskResp :=
  match fault with
  | some msg =>
    { status := 500, message := "Server error while fetching task"
      task := none, errors := none, error := devError env msg }
  | none =>
    match Task.findOne store tid uid with
    | none =>
      { status := 404, message := "Task not found"
        task := none, errors := none, error := none }
    | some t =>
      { status := 200, message := "Task retrieved successfully"
        task := some t, errors := none, error := none }

/-- The 404 body every miss produces: `{ message: 'Task not found' }`. -/
def taskNotFoundResp : TaskResp :=
  { status := 404, message := "Task not found"
    task := none, errors := none, error := none }

/-- `src/config/authConfig.js`: `jwtSecret` is
`process.env.JWT_SECRET || 'fallback_secret'` — the JS `||` falls back both
when the variable is unset and when it is set to the empty string (falsy). -/
def jwtSecret (envVar : Option String) : String :=
  match envVar with
  | some s => if s = "" then "fallback_secret" else s
  | none => "fallback_secret"

/-- `src/config/authConfig.js`: `jwtExpire: '7d'` (seven days). -/
def jwtExpire : String := "7d"

/-- `src/config/authConfig.js`: `bcryptSaltRounds: 12`. -/
def bcryptSaltRounds : Nat := 12

/-- Modelled from the spec (§4.3 Token Codec) — the JWT implementation
(`authController.js` / `jsonwebtoken`) is not among the provided sources.
A token payload carries `principalId`, `issuedAt`, `expiresAt`. -/
structure Payload where
  principalId : Nat
  issuedAt : Nat
  expiresAt : Nat
deriving DecidableEq, Repr

/-- Modelled from the spec: the integrity signature over a payload under a
server-held secret, idealized as a perfect MAC — the signature determines and
is determined by the (payload, secret) pair, so any change to either
invalidates verification. -/
def sign (p : Payload) (secret : String) : Payload × String := (p, secret)

/-- Modelled from the spec: a bearer token on the wire is either undecodable
garbage or a decodable payload together with a claimed signature. -/
inductive RawToken where
  | malformed
  | wellFormed (payload : Payload) (sig : Payload × String)
deriving DecidableEq, Repr

/-- Modelled from the spec: `issue(principalId, ttl)` at time `now` embeds the
principal id, the current time and `expiresAt = now + ttl`, then signs the
payload with the server-held secret. -/
def issue (principalId ttl now : Nat) (secret : String) : RawToken :=
  RawToken.wellFormed
    { principalId := principalId, issuedAt := now, expiresAt := now + ttl }
    (sign { principalId := principalId, issuedAt := now, expiresAt := now + ttl }
      secret)

/-- Modelled from the spec: `validate(token)` at time `now` fails on an
undecodable payload, on a signature that does not verify, and on
`expiresAt <= now`; otherwise it yields the embedded `principalId`. -/
def validate (tok : RawToken) (now : Nat) (secret : String) : Option Nat :=
  match tok with
  | RawToken.malformed => none
  | RawToken.wellFormed p s =>
    if s = sign p secret ∧ now < p.expiresAt then some p.principalId else none

/-- Outcome of the access gate: a 401 rejection or a resolved principal. -/
structure AuthResult where
  status : Nat
  principal : Option Nat
deriving DecidableEq, Repr

/-- The single rejection the gate ever produces: 401, no principal. -/
def unauthorizedResp : AuthResult := { status := 401, principal := none }

/-- Modelled from the spec (§4.5 Access Gate) and the README's
`authMiddleware` description — the middleware source is not among the
provided files.  Extract the bearer token (reject when absent or with a
non-Bearer scheme), validate it, resolve the principal id against the user
store, and reject with the same 401 in every failure case. -/
def authMiddleware (header : Option (String × RawToken)) (now : Nat)
    (secret : String) (users : List Nat) : AuthResult :=
  match header with
  | none => unauthorizedResp
  | some (scheme, tok) =>
    if scheme ≠ "Bearer" then unauthorizedResp
    else match validate tok now secret with
    | none => unauthorizedResp
    | some pid =>
      if pid ∈ users then { status := 200, principal := some pid }
      else unauthorizedResp

/-! ### Helper lemmas about the store model -/

theorem mem_orderedInsertTask (le : Task → Task → Bool) (a x : Task) :
    ∀ l : List Task, x ∈ orderedInsertTask le a l ↔ x = a ∨ x ∈ l := by
  intro l
  induction l with
  | nil => simp [orderedInsertTask]
  | cons b l ih =>
    by_cases h : le a b = true
    · simp [orderedInsertTask, h]
    · simp only [orderedInsertTask, h, if_neg, Bool.not_eq_true] at *
      simp [List.mem_cons, ih]
      tauto

theorem mem_insertionSortTask (le : Task → Task → Bool) (x : Task) :
    ∀ l : List Task, x ∈ insertionSortTask le l ↔ x ∈ l := by
  intro l
  induction l with
  | nil => simp [insertionSortTask]
  | cons a l ih =>
    simp [insertionSortTask, mem_orderedInsertTask, ih]

theorem pairwise_orderedInsertTask (le : Task → Task → Bool)
    (htot : ∀ a b, le a b = true ∨ le b a = true)
    (htrans : ∀ a b c, le a b = true → le b c = true → le a c = true)
    (a : Task) :
    ∀ l : List Task, l.Pairwise (fun x y => le x y = true) →
      (orderedInsertTask le a l).Pairwise (fun x y => le x y = true) := by
  intro l
  induction l with
  | nil => intro _; simp [orderedInsertTask]
  | cons b l ih =>
    intro hp
    rw [List.pairwise_cons] at hp
    obtain ⟨hb, hl⟩ := hp
    by_cases h : le a b = true
    · rw [orderedInsertTask, if_pos h, List.pairwise_cons]
      constructor
      · intro y hy
        rcases List.mem_cons.mp hy with hy | hy
        · exact hy ▸ h
        · exact htrans a b y h (hb y hy)
      · exact List.pairwise_cons.mpr ⟨hb, hl⟩
    · rw [orderedInsertTask, if_neg h, List.pairwise_cons]
      constructor
      · intro y hy
        rcases (mem_orderedInsertTask le a y l).mp hy with hy | hy
        · rw [hy]
          rcases htot a b with ht | ht
          · exact absurd ht h
          · exact ht
        · exact hb y hy
      · exact ih hl

theorem pairwise_insertionSortTask (le : Task → Task → Bool)
    (htot : ∀ a b, le a b = true ∨ le b a = true)
    (htrans : ∀ a b c, le a b = true → le b c = true → le a c = true) :
    ∀ l : List Task,
      (insertionSortTask le l).Pairwise (fun x y => le x y = true) := by
  intro l
  induction l with
  | nil => simp [insertionSortTask]
  | cons a l ih =>
    exact pairwise_orderedInsertTask le htot htrans a _ ih

theorem sortLe_neg_createdAt (a b : Task) :
    sortLe "-createdAt" a b = decide (b.createdAt ≤ a.createdAt) := rfl

theorem mem_replaceFirstTask (tid uid : Nat) (x t' : Task) :
    ∀ store : List Task,
      t' ∈ replaceFirstTask store tid uid x → t' ∈ store ∨ t' = x := by
  intro store
  induction store with
  | nil => intro h; simp [replaceFirstTask] at h
  | cons t l ih =>
    intro h
    rw [replaceFirstTask] at h
    by_cases hc : (t.id == tid && t.user == uid) = true
    · rw [if_pos hc] at h
      rcases List.mem_cons.mp h with h | h
      · exact Or.inr h
      · exact Or.inl (List.mem_cons_of_mem t h)
    · rw [if_neg hc] at h
      rcases List.mem_cons.mp h with h | h
      · exact Or.inl (h ▸ List.mem_cons_self t l)
      · rcases ih h with h | h
        · exact Or.inl (List.mem_cons_of_mem t h)
        · exact Or.inr h

theorem mem_replaceFirstTask_of_not_match (tid uid : Nat) (x t : Task)
    (hne : ¬(t.id = tid ∧ t.user = uid)) :
    ∀ store : List Task, t ∈ store → t ∈ replaceFirstTask store tid uid x := by
  intro store
  induction store with
  | nil => intro h; exact absurd h (List.not_mem_nil t)
  | cons t0 l ih =>
    intro h
    rw [replaceFirstTask]
    by_cases hc : (t0.id == tid && t0.user == uid) = true
    · rw [if_pos hc]
      rcases List.mem_cons.mp h with h | h
      · exfalso
        apply hne
        rw [h]
        simpa [Bool.and_eq_true, beq_iff_eq] using hc
      · exact List.mem_cons_of_mem _ h
    · rw [if_neg hc]
      rcases List.mem_cons.mp h with h | h
      · rw [h]
        exact List.mem_cons_self t0 _
      · exact List.mem_cons_of_mem _ (ih h)

theorem findOne_some_owner (store : List Task) (tid uid : Nat) (t : Task)
    (h : Task.findOne store tid uid = some t) : t.id = tid ∧ t.user = uid := by
  have hp := List.find?_some h
  simp only [Bool.and_eq_true, beq_iff_eq] at hp
  exact hp

theorem findOne_none_of_unowned (store : List Task) (tid uid : Nat)
    (h : ∀ t ∈ store, ¬(t.id = tid ∧ t.user = uid)) :
    Task.findOne store tid uid = none := by
  rw [Task.findOne, List.find?_eq_none]
  intro t ht
  have := h t ht
  simp only [Bool.and_eq_true, beq_iff_eq]
  tauto

/-- The list-endpoint query with no parameter supplied. -/
def qEmpty : TaskQuery := { completed := none, priority := none, sort := none }

/-- The list-endpoint query `?sort=title`. -/
def qTitle : TaskQuery := { completed := none, priority := none, sort := some "title" }

/-- The list-endpoint query `?completed=banana`. -/
def qBanana : TaskQuery :=
  { completed := some "banana", priority := none, sort := none }

/-- A sample task owned by user 2. -/
def taskB0 : Task :=
  { id := 1, title := "bobs task", description := "", completed := false
    priority := "medium", dueDate := none, user := 2, createdAt := 0
    updatedAt := 0 }

/-- A sample task owned by user 1. -/
def aliceTask : Task :=
  { id := 1, title := "alices task", description := "", completed := false
    priority := "medium", dueDate := none, user := 1, createdAt := 0
    updatedAt := 0 }

/-- An older sample task owned by user 1. -/
def taskOld : Task :=
  { id := 2, title := "old", description := "", completed := false
    priority := "medium", dueDate := none, user := 1, createdAt := 5
    updatedAt := 5 }

/-- A newer sample task owned by user 1. -/
def taskNew : Task :=
  { id := 3, title := "new", description := "", completed := true
    priority := "high", dueDate := none, user := 1, createdAt := 9
    updatedAt := 9 }

/-- An update body whose only field is a caller-supplied owner. -/
def takeoverBody : TaskBody :=
  { title := none, description := none, priority := none
    dueDate := none, completed := none, user := some 2 }

/-- A create body carrying only a title. -/
def titleBody : TaskBody :=
  { title := some "x", description := none, priority := none
    dueDate := none, completed := none, user := none }

/-! ### Claim theorems -/

/-- Claim C1: the filter `getTasks` hands to the store carries
`user = req.user._id`, and for two distinct principals A and B the task list
returned to A contains no task owned by B — every returned task is owned
by A. -/
theorem getTasks_ownership (env : String) (store : List Task) (A B : Nat)
    (q : TaskQuery) (hAB : A ≠ B) :
    (buildFilter A q).user = A ∧
    ∀ l, (getTasks env none store A q).tasks = some l →
      ∀ t ∈ l, t.user = A ∧ t.user ≠ B := by
  refine ⟨rfl, ?_⟩
  intro l hl t ht
  have hl' : Task.find store (buildFilter A q) (q.sort.getD "-createdAt") = l := by
    simpa [getTasks] using hl
  rw [← hl', Task.find, mem_insertionSortTask] at ht
  have hfil := (List.mem_filter.mp ht).2
  simp only [matchesFilter, buildFilter, Bool.and_eq_true, beq_iff_eq] at hfil
  have hA : t.user = A := hfil.1.1
  exact ⟨hA, by rw [hA]; exact hAB⟩

/-- Witness for C1 at a concrete store: user 1 queries a store holding only a
task of user 2. -/
theorem getTasks_ownership_witness :
    (buildFilter 1 qEmpty).user = 1 ∧
    ∀ l, (getTasks "production" none [taskB0] 1 qEmpty).tasks = some l →
      ∀ t ∈ l, t.user = 1 ∧ t.user ≠ 2 :=
  getTasks_ownership "production" [taskB0] 1 2 qEmpty (by decide)

/-- Claim C4: `createTask` stamps `user: req.user._id` after spreading the
body, so every task the operation adds to the store is owned by the
authenticated principal, whatever the body contains; the task echoed in the
response (when any) is likewise owned by the principal. -/
theorem createTask_stamps_owner (env : String) (fault : Option String)
    (isISO : String → Bool) (store : List Task) (uid nextId now : Nat)
    (body : TaskBody) :
    (∀ t ∈ (createTask env fault isISO store uid nextId now body).2,
      t ∈ store ∨ t.user = uid) ∧
    ((createTask env fault isISO store uid nextId now body).1.task = none ∨
      ((createTask env fault isISO store uid nextId now body).1.task.map
        Task.user) = some uid) := by
  constructor
  · intro t ht
    by_cases hv : createValidationErrors isISO (sanitizeBody body) = []
    · cases fault with
      | some msg =>
        simp [createTask, hv] at ht
        exact Or.inl ht
      | none =>
        simp [createTask, hv] at ht
        rcases ht with ht | ht
        · exact Or.inl ht
        · right; rw [ht]
    · simp [createTask, hv] at ht
      exact Or.inl ht
  · by_cases hv : createValidationErrors isISO (sanitizeBody body) = []
    · cases fault with
      | some msg => left; simp [createTask, hv]
      | none => right; simp [createTask, hv]
    · left; simp [createTask, hv]

/-- Witness for C4: user 1 creates a task from a body that tries to supply
owner 2; everything stored or echoed is owned by user 1. -/
theorem createTask_stamps_owner_witness :
    (∀ t ∈ (createTask "production" none (fun _ => true) [] 1 9 0
        { takeoverBody with title := some "x" }).2,
      t ∈ ([] : List Task) ∨ t.user = 1) ∧
    ((createTask "production" none (fun _ => true) [] 1 9 0
        { takeoverBody with title := some "x" }).1.task = none ∨
      ((createTask "production" none (fun _ => true) [] 1 9 0
        { takeoverBody with title := some "x" }).1.task.map Task.user) =
        some 1) :=
  createTask_stamps_owner "production" none (fun _ => true) [] 1 9 0
    { takeoverBody with title := some "x" }

/-- Claim C9: with no `sort` query parameter `getTasks` queries the store
with `-createdAt` and the result is ordered newest-first on `createdAt`;
a supplied `sort` parameter is handed to the store unchanged. -/
theorem getTasks_sort_behavior (env : String) (store : List Task) (uid : Nat)
    (q : TaskQuery) :
    (q.sort = none →
      (getTasks env none store uid q).tasks =
        some (Task.find store (buildFilter uid q) "-createdAt") ∧
      (Task.find store (buildFilter uid q) "-createdAt").Pairwise
        (fun a b => b.createdAt ≤ a.createdAt)) ∧
    ∀ s, q.sort = some s →
      (getTasks env none store uid q).tasks =
        some (Task.find store (buildFilter uid q) s) := by
  constructor
  · intro hs
    refine ⟨by simp [getTasks, hs], ?_⟩
    have hp := pairwise_insertionSortTask (sortLe "-createdAt")
      (fun a b => by
        rw [sortLe_neg_createdAt, sortLe_neg_createdAt]
        rcases Nat.le_total b.createdAt a.createdAt with h | h
        · exact Or.inl (by simpa using h)
        · exact Or.inr (by simpa using h))
      (fun a b c hab hbc => by
        rw [sortLe_neg_createdAt] at hab hbc ⊢
        simp only [decide_eq_true_eq] at hab hbc ⊢
        exact Nat.le_trans hbc hab)
      (store.filter (matchesFilter (buildFilter uid q)))
    rw [Task.find]
    refine hp.imp ?_
    intro a b h
    rw [sortLe_neg_createdAt] at h
    simpa using h
  · intro s hs
    simp [getTasks, hs]

/-- Witness for C9: a two-task store queried without a sort parameter and
with `?sort=title`. -/
theorem getTasks_sort_behavior_witness :
    ((getTasks "production" none [taskOld, taskNew] 1 qEmpty).tasks =
        some (Task.find [taskOld, taskNew] (buildFilter 1 qEmpty) "-createdAt") ∧
      (Task.find [taskOld, taskNew] (buildFilter 1 qEmpty) "-createdAt").Pairwise
        (fun a b => b.createdAt ≤ a.createdAt)) ∧
    (getTasks "production" none [taskOld, taskNew] 1 qTitle).tasks =
      some (Task.find [taskOld, taskNew] (buildFilter 1 qTitle) "title") :=
  ⟨(getTasks_sort_behavior "production" [taskOld, taskNew] 1 qEmpty).1 rfl,
   (getTasks_sort_behavior "production" [taskOld, taskNew] 1 qTitle).2
     "title" rfl⟩

/-- Claim C10: `getTasks` consults no validation result, so it answers 200
for every query; a present `completed` parameter becomes the filter value
`completed === 'true'`, so any value other than the exact string `true` —
including `banana`, which `queryValidation` would flag — filters for
`completed == false` instead of being rejected. -/
theorem getTasks_unvalidated_completed (env : String) (store : List Task)
    (uid : Nat) (q : TaskQuery) :
    (getTasks env none store uid q).status = 200 ∧
    (∀ c, q.completed = some c →
      (buildFilter uid q).completed = some (c == "true")) ∧
    queryValidationErrors qBanana = ["Completed must be true or false"] ∧
    (buildFilter uid qBanana).completed = some false ∧
    (getTasks env none store uid qBanana).status = 200 := by
  refine ⟨rfl, ?_, by decide, rfl, rfl⟩
  intro c hc
  simp [buildFilter, hc]

/-- Witness for C10 at the `?completed=banana` query. -/
theorem getTasks_unvalidated_completed_witness :
    (buildFilter 7 qBanana).completed = some ("banana" == "true") :=
  (getTasks_unvalidated_completed "production" [] 7 qBanana).2.1 "banana" rfl

/-- Counterexample to claim C2: `Object.assign(task, req.body)` copies a
caller-supplied `user` field onto the fetched document, so user 1's update of
their own task with body `{ user: 2 }` succeeds (200) and leaves the task —
in the response and in the store — owned by user 2. -/
theorem updateTask_owner_takeover :
    (updateTask "production" none (fun _ => true) [aliceTask] 1 1
        takeoverBody).1.status = 200 ∧
    ((updateTask "production" none (fun _ => true) [aliceTask] 1 1
        takeoverBody).1.task).map Task.user = some 2 ∧
    ((updateTask "production" none (fun _ => true) [aliceTask] 1 1
        takeoverBody).2).map Task.user = [2] := by
  decide

/-- Claim C2 as amended: every update by principal `uid` is scoped to tasks
owned by `uid` (`Task.findOne({ _id, user })`), for every request body: a
task not owned by `uid` survives in the store untouched, and any document the
update changes arises from applying the body to a task that was owned by
`uid`.  When the body carries no `user` field the updated task moreover still
belongs to `uid`.  (A body `user` field does change the owner — see the
counterexample.) -/
theorem updateTask_scoped_owner_preserved (env : String)
    (isISO : String → Bool) (store : List Task) (uid tid : Nat)
    (body : TaskBody) :
    (∀ t ∈ store, t.user ≠ uid →
      t ∈ (updateTask env none isISO store uid tid body).2) ∧
    (∀ t' ∈ (updateTask env none isISO store uid tid body).2,
      t' ∈ store ∨ ∃ t ∈ store, t.id = tid ∧ t.user = uid ∧
        t' = assignBody (sanitizeBody body) t) ∧
    (body.user = none →
      ∀ t' ∈ (updateTask env none isISO store uid tid body).2,
        t' ∈ store ∨ t'.user = uid) := by
  refine ⟨?_, ?_, ?_⟩
  · intro t ht hne
    by_cases hv : updateValidationErrors isISO (sanitizeBody body) = []
    · rcases hfo : Task.findOne store tid uid with _ | t0
      · simpa [updateTask, hv, hfo] using ht
      · simp only [updateTask, hv, hfo]
        simp only [ne_eq, not_false_eq_true, if_neg, reduceCtorEq]
        exact mem_replaceFirstTask_of_not_match tid uid _ t
          (fun hm => hne hm.2) store ht
    · simpa [updateTask, hv] using ht
  · intro t' ht
    by_cases hv : updateValidationErrors isISO (sanitizeBody body) = []
    · rcases hfo : Task.findOne store tid uid with _ | t0
      · simp [updateTask, hv, hfo] at ht
        exact Or.inl ht
      · simp [updateTask, hv, hfo] at ht
        rcases mem_replaceFirstTask tid uid _ t' store ht with h | h
        · exact Or.inl h
        · exact Or.inr ⟨t0, List.mem_of_find?_eq_some hfo,
            (findOne_some_owner store tid uid t0 hfo).1,
            (findOne_some_owner store tid uid t0 hfo).2, h⟩
    · simp [updateTask, hv] at ht
      exact Or.inl ht
  · intro hu t' ht
    by_cases hv : updateValidationErrors isISO (sanitizeBody body) = []
    · rcases hfo : Task.findOne store tid uid with _ | t0
      · simp [updateTask, hv, hfo] at ht
        exact Or.inl ht
      · simp [updateTask, hv, hfo] at ht
        rcases mem_replaceFirstTask tid uid _ t' store ht with h | h
        · exact Or.inl h
        · right
          rw [h]
          have huser : (assignBody (sanitizeBody body) t0).user = t0.user := by
            simp [assignBody, sanitizeBody, hu]
          rw [huser]
          exact (findOne_some_owner store tid uid t0 hfo).2
    · simp [updateTask, hv] at ht
      exact Or.inl ht

/-- Witness for the amended C2: user 1's update carrying body `{ user: 2 }`
leaves user 2's task untouched in the store, and user 1's empty-body update
of their own task keeps it owned by user 1. -/
theorem updateTask_scoped_owner_preserved_witness :
    taskB0 ∈ (updateTask "production" none (fun _ => true) [taskB0] 1 1
      takeoverBody).2 ∧
    (aliceTask ∈ [aliceTask] ∨ aliceTask.user = 1) :=
  ⟨(updateTask_scoped_owner_preserved "production" (fun _ => true) [taskB0]
      1 1 takeoverBody).1 taskB0 (by decide) (by decide),
   (updateTask_scoped_owner_preserved "production" (fun _ => true) [aliceTask]
      1 1 emptyBody).2.2 rfl aliceTask (by decide)⟩

/-- Claim C3: when no task owned by the principal matches the id — whether
the id belongs to another principal's task or to no task at all — `getTask`,
`deleteTask` and `updateTask` (with a body passing validation) all answer the
very same `{ status: 404, message: 'Task not found' }` body, and the store is
untouched. -/
theorem notFound_uniform (env : String) (isISO : String → Bool)
    (store : List Task) (uid tid : Nat) (body : TaskBody)
    (h : ∀ t ∈ store, ¬(t.id = tid ∧ t.user = uid))
    (hv : updateValidationErrors isISO (sanitizeBody body) = []) :
    getTask env none store uid tid = taskNotFoundResp ∧
    deleteTask env none store uid tid = (taskNotFoundResp, store) ∧
    updateTask env none isISO store uid tid body = (taskNotFoundResp, store) := by
  have hfo := findOne_none_of_unowned store tid uid h
  refine ⟨?_, ?_, ?_⟩ <;>
    simp [getTask, deleteTask, updateTask, hfo, hv, taskNotFoundResp]

/-- Witness for C3: user 1 addresses id 1, which exists but belongs to
user 2 — the same input also covers the genuinely-absent case since no task
of user 1 exists at all. -/
theorem notFound_uniform_witness :
    getTask "production" none [taskB0] 1 1 = taskNotFoundResp ∧
    deleteTask "production" none [taskB0] 1 1 = (taskNotFoundResp, [taskB0]) ∧
    updateTask "production" none (fun _ => true) [taskB0] 1 1 emptyBody =
      (taskNotFoundResp, [taskB0]) :=
  notFound_uniform "production" (fun _ => true) [taskB0] 1 1 emptyBody
    (by decide) rfl

/-- Claim C5: a token issued at `now` with time-to-live `ttl` validates to
the same principal id at every time `t < now + ttl` (`= issuedAt + ttl`) and
fails at every `t ≥ expiresAt`; the configured default ttl is `'7d'` —
seven days. -/
theorem token_roundtrip (pid ttl now : Nat) (secret : String) (t : Nat) :
    (t < now + ttl →
      validate (issue pid ttl now secret) t secret = some pid) ∧
    (now + ttl ≤ t →
      validate (issue pid ttl now secret) t secret = none) ∧
    jwtExpire = "7d" := by
  refine ⟨?_, ?_, rfl⟩
  · intro h
    simp [validate, issue, sign, h]
  · intro h
    have h' : ¬ t < now + ttl := Nat.not_lt.mpr h
    simp [validate, issue, sign, h']

/-- Witness for C5: principal 7, ttl 100, issued at 1000 — valid at 1050,
expired at 1100. -/
theorem token_roundtrip_witness :
    validate (issue 7 100 1000 "k") 1050 "k" = some 7 ∧
    validate (issue 7 100 1000 "k") 1100 "k" = none :=
  ⟨(token_roundtrip 7 100 1000 "k" 1050).1 (by decide),
   (token_roundtrip 7 100 1000 "k" 1100).2.1 (by decide)⟩

/-- Claim C6: an undecodable payload, a signature that does not verify, and
an expired token all make the access gate answer the one and the same
rejection (`unauthorizedResp`, status 401) — nothing in the response
distinguishes the three causes. -/
theorem authMiddleware_uniform_reject (p : Payload) (s : Payload × String)
    (now : Nat) (secret : String) (users : List Nat) :
    authMiddleware (some ("Bearer", RawToken.malformed)) now secret users =
      unauthorizedResp ∧
    (s ≠ sign p secret →
      authMiddleware (some ("Bearer", RawToken.wellFormed p s)) now secret
        users = unauthorizedResp) ∧
    (p.expiresAt ≤ now →
      authMiddleware (some ("Bearer", RawToken.wellFormed p (sign p secret)))
        now secret users = unauthorizedResp) := by
  refine ⟨rfl, ?_, ?_⟩
  · intro hs
    simp [authMiddleware, validate, hs]
  · intro hexp
    have h' : ¬ now < p.expiresAt := Nat.not_lt.mpr hexp
    simp [authMiddleware, validate, h']

/-- Witness for C6: a tampered signature at time 5 and an expired token at
time 10 both yield the single 401 rejection. -/
theorem authMiddleware_uniform_reject_witness :
    authMiddleware (some ("Bearer",
        RawToken.wellFormed ⟨1, 0, 10⟩ (⟨1, 0, 10⟩, "other"))) 5 "k" [1] =
      unauthorizedResp ∧
    authMiddleware (some ("Bearer",
        RawToken.wellFormed ⟨1, 0, 10⟩ (sign ⟨1, 0, 10⟩ "k"))) 10 "k" [1] =
      unauthorizedResp :=
  ⟨(authMiddleware_uniform_reject ⟨1, 0, 10⟩ (⟨1, 0, 10⟩, "other") 5 "k"
      [1]).2.1 (by decide),
   (authMiddleware_uniform_reject ⟨1, 0, 10⟩ (⟨1, 0, 10⟩, "other") 10 "k"
      [1]).2.2 (by decide)⟩

/-- Counterexample to claim C7: with `NODE_ENV=development` a store fault's
own message is copied into the response body (`error: error.message`), so the
caller does receive internal detail under that process environment. -/
theorem getTasks_dev_error_leak :
    (getTasks "development" (some "underlying db failure") [] 1 qEmpty).error =
      some "underlying db failure" ∧
    (getTasks "development" (some "underlying db failure") [] 1 qEmpty).status =
      500 :=
  ⟨rfl, rfl⟩

/-- Claim C7 as amended: a store fault surfaces as status 500 on every task
operation, and whenever `NODE_ENV` is anything other than `development` the
response carries no detail of the underlying fault (`error` is absent). -/
theorem serverError_sanitized_outside_dev (env msg : String)
    (isISO : String → Bool) (store : List Task) (uid nextId now tid : Nat)
    (q : TaskQuery) (body : TaskBody) (henv : env ≠ "development")
    (hv : createValidationErrors isISO (sanitizeBody body) = []) :
    ((getTasks env (some msg) store uid q).status = 500 ∧
      (getTasks env (some msg) store uid q).error = none) ∧
    ((createTask env (some msg) isISO store uid nextId now body).1.status = 500 ∧
      (createTask env (some msg) isISO store uid nextId now body).1.error = none) ∧
    ((updateTask env (some msg) isISO store uid tid emptyBody).1.status = 500 ∧
      (updateTask env (some msg) isISO store uid tid emptyBody).1.error = none) ∧
    ((deleteTask env (some msg) store uid tid).1.status = 500 ∧
      (deleteTask env (some msg) store uid tid).1.error = none) ∧
    ((getTask env (some msg) store uid tid).status = 500 ∧
      (getTask env (some msg) store uid tid).error = none) := by
  have hde : devError env msg = none := by simp [devError, henv]
  have hveu : updateValidationErrors isISO (sanitizeBody emptyBody) = [] := rfl
  refine ⟨⟨rfl, by simp [getTasks, hde]⟩, ?_, ?_,
    ⟨rfl, by simp [deleteTask, hde]⟩, ⟨rfl, by simp [getTask, hde]⟩⟩
  · constructor <;> simp [createTask, hv, hde]
  · constructor <;> simp [updateTask, hveu, hde]

/-- Witness for the amended C7: `NODE_ENV=production`, fault message `boom`,
a create body holding only a title. -/
theorem serverError_sanitized_outside_dev_witness :
    ((getTasks "production" (some "boom") [] 1 qEmpty).status = 500 ∧
      (getTasks "production" (some "boom") [] 1 qEmpty).error = none) ∧
    ((createTask "production" (some "boom") (fun _ => true) [] 1 9 0
        titleBody).1.status = 500 ∧
      (createTask "production" (some "boom") (fun _ => true) [] 1 9 0
        titleBody).1.error = none) ∧
    ((updateTask "production" (some "boom") (fun _ => true) [] 1 1
        emptyBody).1.status = 500 ∧
      (updateTask "production" (some "boom") (fun _ => true) [] 1 1
        emptyBody).1.error = none) ∧
    ((deleteTask "production" (some "boom") [] 1 1).1.status = 500 ∧
      (deleteTask "production" (some "boom") [] 1 1).1.error = none) ∧
    ((getTask "production" (some "boom") [] 1 1).status = 500 ∧
      (getTask "production" (some "boom") [] 1 1).error = none) :=
  serverError_sanitized_outside_dev "production" "boom" (fun _ => true)
    [] 1 9 0 1 qEmpty titleBody (by decide) (by decide)

/-- Counterexample to claim C8: `jwtSecret` is
`process.env.JWT_SECRET || 'fallback_secret'`, so with `JWT_SECRET` set to
the empty string (and likewise when it is unset) the signing key is the
hardcoded `fallback_secret`, not the configured value. -/
theorem jwtSecret_fallback :
    jwtSecret (some "") = "fallback_secret" ∧
    jwtSecret none = "fallback_secret" ∧
    jwtSecret (some "") ≠ "" := by
  refine ⟨rfl, rfl, by decide⟩

/-- Claim C8 as amended: whenever `JWT_SECRET` is set to a non-empty value
the signing key is exactly that value, and tokens issued under one key are
rejected by a codec validating under any different key. -/
theorem jwtSecret_configured_cross_reject (s k1 k2 : String)
    (pid ttl now t : Nat) (hs : s ≠ "") (hk : k1 ≠ k2) :
    jwtSecret (some s) = s ∧
    validate (issue pid ttl now k1) t k2 = none := by
  constructor
  · simp [jwtSecret, hs]
  · simp [validate, issue, sign, hk]

/-- Witness for the amended C8: key `prodkey`, and a token under `keyA`
checked under `keyB` while still unexpired. -/
theorem jwtSecret_configured_cross_reject_witness :
    jwtSecret (some "prodkey") = "prodkey" ∧
    validate (issue 1 100 0 "keyA") 50 "keyB" = none :=
  jwtSecret_configured_cross_reject "prodkey" "keyA" "keyB" 1 100 0 50
    (by decide) (by decide)

end TM
